import Mathlib

/-!
Verification of `redisvl/utils/vectorize/text/openai.py`
(`OpenAITextVectorizer`), a client wrapper around the OpenAI embeddings
endpoint exposing `embed`, `embed_many`, `aembed`, `aembed_many`.

Shallow embedding notes:
* Python values reaching the dynamically-typed entry points are modelled by
  `PyVal`; Python exceptions by `PyErr` (every constructor models a subclass
  of `Exception`).
* The remote embeddings endpoint (`self._client.embeddings.create` /
  `self._aclient.embeddings.create`) is an oracle of type `Api`; a call with
  input `batch` yields either an exception or `response.data`, a list whose
  entries carry one `.embedding` vector each.  The entries of an embedding
  vector are opaque to this module (they are only moved around and counted),
  so the scalar type is modelled by `Int`.
* Each method body also reports the list of remote calls it actually issued
  (its call log), so that "no remote call is made" is expressible.
* The `tenacity` `@retry` decorator on all four entry points
  (`wait_random_exponential(min=1, max=60)`, `stop_after_attempt(6)`,
  `retry_if_not_exception_type(TypeError)`) is modelled by `tenacityRetry`:
  the wrapped body is indexed by the attempt number, the wait times are
  timing-only and not modelled, and the underlying failure of the last
  attempt is surfaced (tenacity wraps it in a `RetryError`; the wrapper
  carries no information used by this module, so it is elided).
* The `@deprecated_argument("dtype")` decorator only emits a warning and then
  delegates; it is behaviour-preserving and elided.  The `dtype` keyword
  argument itself (`kwargs.pop("dtype", self.dtype)`) is the `dtypeKw`
  parameter.
-/

/-- A Python value as seen by the dynamically typed entry points. -/
inductive PyVal where
  | str : String → PyVal
  | int : Int → PyVal
  | float : Int → PyVal
  | none : PyVal
  | list : List PyVal → PyVal

/-- `isinstance(v, str)`. -/
def PyVal.isStr : PyVal → Bool
  | .str _ => true
  | _ => false

/-- A Python exception.  Every constructor models a subclass of `Exception`
(exceptions outside the `Exception` hierarchy, e.g. `KeyboardInterrupt`, do
not arise in this module). -/
inductive PyErr where
  | typeError : String → PyErr
  | keyError : String → PyErr
  | indexError : PyErr
  | valueError : String → PyErr
  | apiError : String → PyErr

/-- `isinstance(e, TypeError)`: the predicate tested by
`retry_if_not_exception_type(TypeError)`. -/
def PyErr.isTypeError : PyErr → Bool
  | .typeError _ => true
  | _ => false

/-- `str(e)`, as used when rewrapping exceptions into `ValueError` messages. -/
def PyErr.pyStr : PyErr → String
  | .typeError m => m
  | .keyError k => k
  | .indexError => "list index out of range"
  | .valueError m => m
  | .apiError m => m

/-- The value returned by an entry point for one input text: the raw float
list, or, when `as_buffer` is set, the fixed-width byte buffer produced by
serializing it for the given dtype.  The buffer is kept in tagged form
(dtype and the serialized vector) rather than as raw bytes. -/
inductive Embedding where
  | floats : List Int → Embedding
  | buffer : String → List Int → Embedding

/-- Modelled from the spec: byte width of one vector element for a given
dtype ("optionally serialized to a fixed-width byte buffer").  Only dtypes
accepted by the base vectorizer occur. -/
def dtypeWidth : String → Nat
  | "float16" => 2
  | "bfloat16" => 2
  | "float64" => 8
  | _ => 4

/-- Python `len` of the value returned for one text: the number of floats,
or the number of bytes of the serialized buffer. -/
def Embedding.pyLen : Embedding → Nat
  | .floats v => v.length
  | .buffer dt v => dtypeWidth dt * v.length

/-- Modelled from the spec: `BaseVectorizer._process_embedding` (not under
`src/`) converts one raw numeric vector of the response into the requested
output form: the float list itself, or a fixed-width byte buffer for the
given dtype when `as_buffer` is set. -/
def _process_embedding (emb : List Int) (as_buffer : Bool) (dtype : String) :
    Embedding :=
  if as_buffer then .buffer dtype emb else .floats emb

/-- The remote embeddings endpoint: from the input batch to either an
exception or `response.data`, one embedding vector per data entry. -/
def Api : Type := List PyVal → Except PyErr (List (List Int))

/-- Consecutive chunks of at most `size` elements, in order; `fuel` bounds
the recursion depth and is immaterial whenever `l.length ≤ fuel`. -/
def chunkFuel (size : Nat) : Nat → List PyVal → List (List PyVal)
  | _, [] => []
  | 0, _ :: _ => []
  | fuel + 1, x :: xs =>
    match size with
    | 0 => []
    | s + 1 => (x :: xs.take s) :: chunkFuel size fuel (xs.drop s)

/-- Consecutive chunks of at most `size` elements, in order. -/
def chunkList (size : Nat) (l : List PyVal) : List (List PyVal) :=
  chunkFuel size l.length l

/-- Modelled from the spec: `BaseVectorizer.batchify` (not under `src/`)
splits the input sequence into consecutive batches of at most `batch_size`
elements, applying the optional preprocessing callable to each item. -/
def batchify (items : List PyVal) (batch_size : Nat)
    (preprocess : Option (PyVal → PyVal)) : List (List PyVal) :=
  chunkList batch_size (match preprocess with
    | some f => items.map f
    | Option.none => items)

/-- The batch loop of `embed_many` / `aembed_many` (lines 158-167 resp.
250-259): for each batch, call the endpoint and append the processed
embeddings of `response.data`; also return the list of batches actually
sent to the endpoint. -/
def runBatches (api : Api) (as_buffer : Bool) (dtype : String) :
    List (List PyVal) → List Embedding →
    Except PyErr (List Embedding) × List (List PyVal)
  | [], acc => (.ok acc, [])
  | b :: bs, acc =>
    match api b with
    | .error e => (.error e, [b])
    | .ok respData =>
      let step := runBatches api as_buffer dtype bs
        (acc ++ respData.map (fun r => _process_embedding r as_buffer dtype))
      (step.1, b :: step.2)

/-- Body of `OpenAITextVectorizer.embed_many` (lines 151-167), i.e. the
function wrapped by the retry decorator, with its call log. -/
def embed_many_body (api : Api) (model dtype : String) (texts : PyVal)
    (preprocess : Option (PyVal → PyVal)) (batch_size : Nat)
    (as_buffer : Bool) (dtypeKw : Option String) :
    Except PyErr (List Embedding) × List (List PyVal) :=
  match texts with
  | .list items =>
    match items with
    | x :: _ =>
      if x.isStr then
        runBatches api as_buffer (dtypeKw.getD dtype)
          (batchify items batch_size preprocess) []
      else
        (.error (.typeError "Must pass in a list of str values to embed."), [])
    | [] =>
      runBatches api as_buffer (dtypeKw.getD dtype)
        (batchify items batch_size preprocess) []
  | _ => (.error (.typeError "Must pass in a list of str values to embed."), [])

/-- Body of `OpenAITextVectorizer.embed` (lines 198-209): validate, apply
`preprocess`, call the endpoint with `input=[text]`, process
`result.data[0].embedding` (an empty `data` gives `IndexError`). -/
def embed_body (api : Api) (model dtype : String) (text : PyVal)
    (preprocess : Option (PyVal → PyVal)) (as_buffer : Bool)
    (dtypeKw : Option String) :
    Except PyErr Embedding × List (List PyVal) :=
  match text with
  | .str _ =>
    let t := match preprocess with
      | some f => f text
      | Option.none => text
    match api [t] with
    | .error e => (.error e, [[t]])
    | .ok respData =>
      match respData with
      | [] => (.error .indexError, [[t]])
      | r :: _ => (.ok (_process_embedding r as_buffer (dtypeKw.getD dtype)), [[t]])
  | _ => (.error (.typeError "Must pass in a str value to embed."), [])

/-- Body of `OpenAITextVectorizer.aembed_many` (lines 243-259): identical to
the synchronous body except that the remote call awaits the async client. -/
def aembed_many_body (api : Api) (model dtype : String) (texts : PyVal)
    (preprocess : Option (PyVal → PyVal)) (batch_size : Nat)
    (as_buffer : Bool) (dtypeKw : Option String) :
    Except PyErr (List Embedding) × List (List PyVal) :=
  match texts with
  | .list items =>
    match items with
    | x :: _ =>
      if x.isStr then
        runBatches api as_buffer (dtypeKw.getD dtype)
          (batchify items batch_size preprocess) []
      else
        (.error (.typeError "Must pass in a list of str values to embed."), [])
    | [] =>
      runBatches api as_buffer (dtypeKw.getD dtype)
        (batchify items batch_size preprocess) []
  | _ => (.error (.typeError "Must pass in a list of str values to embed."), [])

/-- Body of `OpenAITextVectorizer.aembed` (lines 290-301): identical to the
synchronous body except that the remote call awaits the async client. -/
def aembed_body (api : Api) (model dtype : String) (text : PyVal)
    (preprocess : Option (PyVal → PyVal)) (as_buffer : Bool)
    (dtypeKw : Option String) :
    Except PyErr Embedding × List (List PyVal) :=
  match text with
  | .str _ =>
    let t := match preprocess with
      | some f => f text
      | Option.none => text
    match api [t] with
    | .error e => (.error e, [[t]])
    | .ok respData =>
      match respData with
      | [] => (.error .indexError, [[t]])
      | r :: _ => (.ok (_process_embedding r as_buffer (dtypeKw.getD dtype)), [[t]])
  | _ => (.error (.typeError "Must pass in a str value to embed."), [])

/-- Attempt loop of the tenacity retry decorator.  `body i` is the `i`-th
execution (0-based) of the wrapped function body; `fuel` is the number of
attempts still allowed.  Returns the final outcome and the total number of
executions performed. -/
def retryGo {α : Type} (body : Nat → Except PyErr α) :
    Nat → Nat → Except PyErr α × Nat
  | 0, i => (.error (.valueError "stop_after_attempt with 0 attempts"), i)
  | fuel + 1, i =>
    match body i with
    | .ok a => (.ok a, i + 1)
    | .error e =>
      if e.isTypeError then (.error e, i + 1)
      else if fuel = 0 then (.error e, i + 1)
      else retryGo body fuel (i + 1)

/-- The tenacity `@retry` decorator of lines 119-123 (and its three
copies): retry with exponential backoff (timing not modelled), stop after
`maxAttempts` attempts, do not retry `TypeError`; the failure of the last
attempt is surfaced. -/
def tenacityRetry {α : Type} (maxAttempts : Nat)
    (body : Nat → Except PyErr α) : Except PyErr α × Nat :=
  retryGo body maxAttempts 0

/-- The four entry points as called, i.e. the body under the retry
decorator.  The endpoint is attempt-indexed (`apiSeq i` is the behaviour of
the remote endpoint on the `i`-th attempt); the second component is the
number of executions of the body. -/
def embed_many (apiSeq : Nat → Api) (model dtype : String) (texts : PyVal)
    (preprocess : Option (PyVal → PyVal)) (batch_size : Nat)
    (as_buffer : Bool) (dtypeKw : Option String) :
    Except PyErr (List Embedding) × Nat :=
  tenacityRetry 6 (fun i =>
    (embed_many_body (apiSeq i) model dtype texts preprocess batch_size
      as_buffer dtypeKw).1)

/-- `embed` as called: its body under the retry decorator. -/
def embed (apiSeq : Nat → Api) (model dtype : String) (text : PyVal)
    (preprocess : Option (PyVal → PyVal)) (as_buffer : Bool)
    (dtypeKw : Option String) : Except PyErr Embedding × Nat :=
  tenacityRetry 6 (fun i =>
    (embed_body (apiSeq i) model dtype text preprocess as_buffer dtypeKw).1)

/-- `aembed_many` as called: its body under the retry decorator. -/
def aembed_many (apiSeq : Nat → Api) (model dtype : String) (texts : PyVal)
    (preprocess : Option (PyVal → PyVal)) (batch_size : Nat)
    (as_buffer : Bool) (dtypeKw : Option String) :
    Except PyErr (List Embedding) × Nat :=
  tenacityRetry 6 (fun i =>
    (aembed_many_body (apiSeq i) model dtype texts preprocess batch_size
      as_buffer dtypeKw).1)

/-- `aembed` as called: its body under the retry decorator. -/
def aembed (apiSeq : Nat → Api) (model dtype : String) (text : PyVal)
    (preprocess : Option (PyVal → PyVal)) (as_buffer : Bool)
    (dtypeKw : Option String) : Except PyErr Embedding × Nat :=
  tenacityRetry 6 (fun i =>
    (aembed_body (apiSeq i) model dtype text preprocess as_buffer dtypeKw).1)

/-- A Python dict of string options, as an association list in insertion
order with distinct keys. -/
abbrev PyDict : Type := List (String × String)

/-- `d.pop(k)`: the value at `k` and the dict without it, or `KeyError`. -/
def dictPop (d : PyDict) (k : String) : Except PyErr (String × PyDict) :=
  match List.lookup k d with
  | some v => .ok (v, d.eraseP (fun kv => kv.1 == k))
  | Option.none => .error (.keyError k)

/-- The data `_initialize_clients` hands to the `OpenAI` / `AsyncOpenAI`
constructors: the resolved API key and the remaining `api_config` options. -/
structure ClientInit where
  apiKey : String
  clientOpts : PyDict

/-- `OpenAITextVectorizer._initialize_clients` (lines 79-107).  The `openai`
importing of `openai` is assumed to succeed.  `env_OPENAI_API_KEY` is the value of
`os.getenv("OPENAI_API_KEY")` (`Option.none` when unset); a `None` or empty
`api_config` falls back to it, a non-empty one is popped for `"api_key"`;
a missing or falsy key raises as in the source. -/
def init_clients (api_config : Option PyDict)
    (env_OPENAI_API_KEY : Option String) : Except PyErr ClientInit :=
  let cfg := api_config.getD []
  match cfg with
  | [] =>
    match env_OPENAI_API_KEY with
    | Option.none =>
      .error (.valueError "OpenAI API key is required. Provide it in api_config or set the OPENAI_API_KEY environment variable.")
    | some k =>
      if k = "" then
        .error (.valueError "OpenAI API key is required. Provide it in api_config or set the OPENAI_API_KEY environment variable.")
      else .ok { apiKey := k, clientOpts := [] }
  | _ :: _ =>
    match dictPop cfg "api_key" with
    | .error e => .error e
    | .ok (k, rest) =>
      if k = "" then
        .error (.valueError "OpenAI API key is required. Provide it in api_config or set the OPENAI_API_KEY environment variable.")
      else .ok { apiKey := k, clientOpts := rest }

/-- `OpenAITextVectorizer._set_model_dims` (lines 109-117): embed the
sentinel probe string and return the length of the result; `KeyError` and
`IndexError` from an unexpected response shape, and any other exception,
are rewrapped as `ValueError`. -/
def _set_model_dims (apiSeq : Nat → Api) (model dtype : String) :
    Except PyErr Nat :=
  match (embed apiSeq model dtype (.str "dimension check") Option.none false
      Option.none).1 with
  | .ok embedding => .ok embedding.pyLen
  | .error (.keyError k) =>
    .error (.valueError ("Unexpected response from the OpenAI API: " ++ k))
  | .error .indexError =>
    .error (.valueError ("Unexpected response from the OpenAI API: " ++ PyErr.pyStr .indexError))
  | .error e =>
    .error (.valueError ("Error setting embedding model dimensions: " ++ e.pyStr))

/-- The state of a constructed `OpenAITextVectorizer`: the fields its
methods read or write. -/
structure OpenAITextVectorizer where
  model : String
  dtype : String
  dims : Nat

/-- `OpenAITextVectorizer.__init__` (lines 50-77): store model and dtype,
initialize the clients, then set `self.dims` by probing. -/
def mkOpenAITextVectorizer (apiSeq : Nat → Api) (model dtype : String)
    (api_config : Option PyDict) (env_OPENAI_API_KEY : Option String) :
    Except PyErr OpenAITextVectorizer :=
  match init_clients api_config env_OPENAI_API_KEY with
  | .error e => .error e
  | .ok _ =>
    match _set_model_dims apiSeq model dtype with
    | .error e => .error e
    | .ok d => .ok { model := model, dtype := dtype, dims := d }

/-- `embed_many` as a method call on a receiver: the body reads only
`self.model`, `self.dtype` and `self._client` and assigns no attribute, so
the post-state is the receiver unchanged. -/
def embed_many_method (apiSeq : Nat → Api) (vz : OpenAITextVectorizer)
    (texts : PyVal) (preprocess : Option (PyVal → PyVal)) (batch_size : Nat)
    (as_buffer : Bool) (dtypeKw : Option String) :
    (Except PyErr (List Embedding) × Nat) × OpenAITextVectorizer :=
  (embed_many apiSeq vz.model vz.dtype texts preprocess batch_size as_buffer
    dtypeKw, vz)

/-- `embed` as a method call on a receiver: no attribute is assigned. -/
def embed_method (apiSeq : Nat → Api) (vz : OpenAITextVectorizer)
    (text : PyVal) (preprocess : Option (PyVal → PyVal)) (as_buffer : Bool)
    (dtypeKw : Option String) :
    (Except PyErr Embedding × Nat) × OpenAITextVectorizer :=
  (embed apiSeq vz.model vz.dtype text preprocess as_buffer dtypeKw, vz)

/-- `aembed_many` as a method call on a receiver: no attribute is assigned. -/
def aembed_many_method (apiSeq : Nat → Api) (vz : OpenAITextVectorizer)
    (texts : PyVal) (preprocess : Option (PyVal → PyVal)) (batch_size : Nat)
    (as_buffer : Bool) (dtypeKw : Option String) :
    (Except PyErr (List Embedding) × Nat) × OpenAITextVectorizer :=
  (aembed_many apiSeq vz.model vz.dtype texts preprocess batch_size as_buffer
    dtypeKw, vz)

/-- `aembed` as a method call on a receiver: no attribute is assigned. -/
def aembed_method (apiSeq : Nat → Api) (vz : OpenAITextVectorizer)
    (text : PyVal) (preprocess : Option (PyVal → PyVal)) (as_buffer : Bool)
    (dtypeKw : Option String) :
    (Except PyErr Embedding × Nat) × OpenAITextVectorizer :=
  (aembed apiSeq vz.model vz.dtype text preprocess as_buffer dtypeKw, vz)

/-- A concrete endpoint behaviour returning a 3-dimensional zero vector for
every input text, used to instantiate theorems at concrete inputs. -/
def constApi3 : Api := fun b => .ok (b.map (fun _ => [0, 0, 0]))

/-- `constApi3` on every attempt. -/
def constApiSeq3 : Nat → Api := fun _ => constApi3

/-- A concrete endpoint behaviour that always fails with a connection
error. -/
def failApi : Api := fun _ => .error (.apiError "connection error")

/-- `failApi` on every attempt. -/
def failApiSeq : Nat → Api := fun _ => failApi

/-- With enough fuel, the chunks of a list concatenate back to the list. -/
theorem chunkFuel_flatten (s : Nat) :
    ∀ (fuel : Nat) (l : List PyVal), l.length ≤ fuel →
      (chunkFuel (s + 1) fuel l).flatten = l := by
  intro fuel
  induction fuel with
  | zero =>
    intro l hl
    have hnil : l = [] := List.length_eq_zero.mp (Nat.le_zero.mp hl)
    subst hnil
    simp [chunkFuel]
  | succ fuel ih =>
    intro l hl
    cases l with
    | nil => simp [chunkFuel]
    | cons x xs =>
      have hlen : (xs.drop s).length ≤ fuel := by
        simp only [List.length_drop]
        simp only [List.length_cons] at hl
        omega
      simp only [chunkFuel, List.flatten_cons, ih (xs.drop s) hlen,
        List.cons_append, List.take_append_drop]

/-- With enough fuel, every chunk is non-empty and has at most `s + 1`
elements. -/
theorem chunkFuel_mem (s : Nat) :
    ∀ (fuel : Nat) (l : List PyVal), l.length ≤ fuel →
      ∀ c ∈ chunkFuel (s + 1) fuel l, c.length ≤ s + 1 ∧ c ≠ [] := by
  intro fuel
  induction fuel with
  | zero =>
    intro l hl
    have hnil : l = [] := List.length_eq_zero.mp (Nat.le_zero.mp hl)
    subst hnil
    simp [chunkFuel]
  | succ fuel ih =>
    intro l hl
    cases l with
    | nil => simp [chunkFuel]
    | cons x xs =>
      have hlen : (xs.drop s).length ≤ fuel := by
        simp only [List.length_drop]
        simp only [List.length_cons] at hl
        omega
      intro c hc
      simp only [chunkFuel, List.mem_cons] at hc
      cases hc with
      | inl hc =>
        subst hc
        refine ⟨?_, by simp⟩
        simp only [List.length_cons, List.length_take]
        omega
      | inr hc => exact ih (xs.drop s) hlen c hc

/-- `chunkList` with positive size: chunks concatenate back to the list. -/
theorem chunkList_flatten (size : Nat) (hs : 0 < size) (l : List PyVal) :
    (chunkList size l).flatten = l := by
  obtain ⟨s, rfl⟩ : ∃ s, size = s + 1 := ⟨size - 1, by omega⟩
  exact chunkFuel_flatten s l.length l (Nat.le_refl _)

/-- `chunkList` with positive size: every chunk is non-empty with at most
`size` elements. -/
theorem chunkList_mem (size : Nat) (hs : 0 < size) (l : List PyVal) :
    ∀ c ∈ chunkList size l, c.length ≤ size ∧ c ≠ [] := by
  obtain ⟨s, rfl⟩ : ∃ s, size = s + 1 := ⟨size - 1, by omega⟩
  exact chunkFuel_mem s l.length l (Nat.le_refl _)

/-- When the endpoint answers every batch with one vector per input, the
batch loop succeeds, issues exactly the given batches, and returns the
processed embeddings of their concatenation after the accumulator. -/
theorem runBatches_ok (api : Api) (ab : Bool) (dt : String)
    (f : PyVal → List Int) (hapi : ∀ b, api b = .ok (b.map f)) :
    ∀ (batches : List (List PyVal)) (acc : List Embedding),
      runBatches api ab dt batches acc =
        (.ok (acc ++ batches.flatten.map (fun t => _process_embedding (f t) ab dt)),
         batches) := by
  intro batches
  induction batches with
  | nil => intro acc; simp [runBatches]
  | cons b batches ih =>
    intro acc
    simp only [runBatches, hapi b, ih, List.flatten_cons, List.map_append,
      List.map_map, List.append_assoc, Function.comp_def]

/-- The attempt loop performs at most `fuel` further executions. -/
theorem retryGo_count_le {α : Type} (body : Nat → Except PyErr α) :
    ∀ (fuel i : Nat), (retryGo body fuel i).2 ≤ i + fuel := by
  intro fuel
  induction fuel with
  | zero => intro i; simp [retryGo]
  | succ fuel ih =>
    intro i
    rw [retryGo]
    cases hb : body i with
    | ok a => simp
    | error e =>
      by_cases hte : e.isTypeError
      · simp [hte]
      · by_cases hf : fuel = 0
        · simp [hte, hf]
        · simp only [hte, hf, Bool.false_eq_true, if_false]
          have := ih (i + 1)
          omega

/-- The retry decorator never executes the body more than `maxAttempts`
times. -/
theorem tenacityRetry_count_le {α : Type} (maxAttempts : Nat)
    (body : Nat → Except PyErr α) :
    (tenacityRetry maxAttempts body).2 ≤ maxAttempts := by
  have := retryGo_count_le body maxAttempts 0
  simpa [tenacityRetry] using this

/-- A body that succeeds on its first execution is executed exactly once. -/
theorem tenacityRetry_ok {α : Type} (maxAttempts : Nat)
    (body : Nat → Except PyErr α) (a : α) (hm : 0 < maxAttempts)
    (h0 : body 0 = .ok a) :
    tenacityRetry maxAttempts body = (.ok a, 1) := by
  obtain ⟨m, rfl⟩ : ∃ m, maxAttempts = m + 1 := ⟨maxAttempts - 1, by omega⟩
  rw [tenacityRetry, retryGo, h0]

/-- A body whose first execution raises `TypeError` is executed exactly
once and the `TypeError` is surfaced unchanged. -/
theorem tenacityRetry_typeError {α : Type} (maxAttempts : Nat)
    (body : Nat → Except PyErr α) (e : PyErr) (hm : 0 < maxAttempts)
    (h0 : body 0 = .error e) (hte : e.isTypeError = true) :
    tenacityRetry maxAttempts body = (.error e, 1) := by
  obtain ⟨m, rfl⟩ : ∃ m, maxAttempts = m + 1 := ⟨maxAttempts - 1, by omega⟩
  rw [tenacityRetry, retryGo, h0]
  simp [hte]

/-- When every allowed attempt fails with a non-`TypeError` exception, the
loop performs all of them and surfaces the failure of the last one. -/
theorem retryGo_all_fail {α : Type} (body : Nat → Except PyErr α) :
    ∀ (fuel i : Nat), 0 < fuel →
      (∀ j, i ≤ j → j < i + fuel →
        ∃ e, body j = .error e ∧ e.isTypeError = false) →
      ∃ e, retryGo body fuel i = (.error e, i + fuel) ∧
        body (i + fuel - 1) = .error e := by
  intro fuel
  induction fuel with
  | zero => intro i h; omega
  | succ fuel ih =>
    intro i _ hall
    obtain ⟨e, he, hte⟩ := hall i (Nat.le_refl i) (by omega)
    rw [retryGo, he]
    cases fuel with
    | zero =>
      refine ⟨e, ?_, ?_⟩
      · simp [hte]
      · simpa using he
    | succ fuel2 =>
      obtain ⟨e2, he2, hb2⟩ :=
        ih (i + 1) (by omega) (fun j hj1 hj2 => hall j (by omega) (by omega))
      refine ⟨e2, ?_, ?_⟩
      · simp only [hte, Bool.false_eq_true, if_false, Nat.succ_ne_zero]
        rw [he2]
        have : i + 1 + (fuel2 + 1) = i + (fuel2 + 1 + 1) := by omega
        rw [this]
      · have : i + 1 + (fuel2 + 1) - 1 = i + (fuel2 + 1 + 1) - 1 := by omega
        rw [this] at hb2
        exact hb2

/-- When every one of the 6 allowed attempts fails with a non-`TypeError`
exception, the retry decorator executes the body exactly 6 times and
surfaces the failure of the 6th execution. -/
theorem tenacityRetry_all_fail {α : Type} (body : Nat → Except PyErr α)
    (hall : ∀ j, j < 6 → ∃ e, body j = .error e ∧ e.isTypeError = false) :
    ∃ e, tenacityRetry 6 body = (.error e, 6) ∧ body 5 = .error e := by
  have := retryGo_all_fail body 6 0 (by omega)
    (fun j hj1 hj2 => hall j (by omega))
  simpa [tenacityRetry] using this

/-- When the endpoint answers every batch with one vector per input text,
`embed_many`'s body succeeds on a list of texts whose first element is a
string: it issues exactly the consecutive batches and returns one processed
embedding per input text, in input order. -/
theorem embed_many_body_ok (api : Api) (model dtype : String)
    (f : PyVal → List Int) (items : List PyVal) (batch_size : Nat)
    (as_buffer : Bool) (dtypeKw : Option String)
    (hbs : 0 < batch_size)
    (hhead : ∀ x ∈ items.take 1, x.isStr = true)
    (hapi : ∀ b, api b = .ok (b.map f)) :
    embed_many_body api model dtype (.list items) Option.none batch_size
        as_buffer dtypeKw =
      (.ok (items.map (fun t =>
          _process_embedding (f t) as_buffer (dtypeKw.getD dtype))),
       chunkList batch_size items) := by
  have hrun := runBatches_ok api as_buffer (dtypeKw.getD dtype) f hapi
    (chunkList batch_size items) []
  rw [chunkList_flatten batch_size hbs items] at hrun
  cases items with
  | nil =>
    simpa [embed_many_body, batchify] using hrun
  | cons x xs =>
    have hx : x.isStr = true := hhead x (by simp)
    rw [embed_many_body]
    simp only [hx, if_true]
    simpa [batchify] using hrun

/-- C1 counterexample: the list `["a", 1]` contains a non-string at
position 1, yet the validation of `embed_many` (and `aembed_many`) passes
because only the first element is checked, and the remote endpoint is
called with the whole list, returning embeddings instead of raising
`TypeError`. -/
theorem embed_many_nonstring_tail_no_typeerror :
    (PyVal.int 1).isStr = false ∧
    embed_many_body constApi3 "text-embedding-ada-002" "float32"
        (.list [.str "a", .int 1]) Option.none 10 false Option.none =
      (.ok [.floats [0, 0, 0], .floats [0, 0, 0]],
       [[PyVal.str "a", PyVal.int 1]]) ∧
    aembed_many_body constApi3 "text-embedding-ada-002" "float32"
        (.list [.str "a", .int 1]) Option.none 10 false Option.none =
      (.ok [.floats [0, 0, 0], .floats [0, 0, 0]],
       [[PyVal.str "a", PyVal.int 1]]) :=
  ⟨rfl, rfl, rfl⟩

/-- C1 (amended): `embed` and `aembed` raise `TypeError` on every
non-string input before any remote call is made; `embed_many` and
`aembed_many` raise `TypeError` before any remote call when the argument is
not a list, or when its first element is not a string (elements past the
first are not validated). -/
theorem typeerror_validation_before_remote_call :
    (∀ (api : Api) (model dtype : String) (text : PyVal)
        (pre : Option (PyVal → PyVal)) (ab : Bool) (dtk : Option String),
      text.isStr = false →
      embed_body api model dtype text pre ab dtk =
        (.error (.typeError "Must pass in a str value to embed."), [])) ∧
    (∀ (api : Api) (model dtype : String) (text : PyVal)
        (pre : Option (PyVal → PyVal)) (ab : Bool) (dtk : Option String),
      text.isStr = false →
      aembed_body api model dtype text pre ab dtk =
        (.error (.typeError "Must pass in a str value to embed."), [])) ∧
    (∀ (api : Api) (model dtype : String) (texts : PyVal)
        (pre : Option (PyVal → PyVal)) (bs : Nat) (ab : Bool)
        (dtk : Option String),
      (∀ items, texts ≠ .list items) →
      embed_many_body api model dtype texts pre bs ab dtk =
        (.error (.typeError "Must pass in a list of str values to embed."), [])) ∧
    (∀ (api : Api) (model dtype : String) (texts : PyVal)
        (pre : Option (PyVal → PyVal)) (bs : Nat) (ab : Bool)
        (dtk : Option String),
      (∀ items, texts ≠ .list items) →
      aembed_many_body api model dtype texts pre bs ab dtk =
        (.error (.typeError "Must pass in a list of str values to embed."), [])) ∧
    (∀ (api : Api) (model dtype : String) (x : PyVal) (xs : List PyVal)
        (pre : Option (PyVal → PyVal)) (bs : Nat) (ab : Bool)
        (dtk : Option String),
      x.isStr = false →
      embed_many_body api model dtype (.list (x :: xs)) pre bs ab dtk =
        (.error (.typeError "Must pass in a list of str values to embed."), [])) ∧
    (∀ (api : Api) (model dtype : String) (x : PyVal) (xs : List PyVal)
        (pre : Option (PyVal → PyVal)) (bs : Nat) (ab : Bool)
        (dtk : Option String),
      x.isStr = false →
      aembed_many_body api model dtype (.list (x :: xs)) pre bs ab dtk =
        (.error (.typeError "Must pass in a list of str values to embed."), [])) := by
  refine ⟨?_, ?_, ?_, ?_, ?_, ?_⟩
  · intro api model dtype text pre ab dtk h
    cases text <;> simp_all [embed_body, PyVal.isStr]
  · intro api model dtype text pre ab dtk h
    cases text <;> simp_all [aembed_body, PyVal.isStr]
  · intro api model dtype texts pre bs ab dtk h
    cases texts <;> first | rfl | exact absurd rfl (h _)
  · intro api model dtype texts pre bs ab dtk h
    cases texts <;> first | rfl | exact absurd rfl (h _)
  · intro api model dtype x xs pre bs ab dtk h
    cases x <;> simp_all [embed_many_body, PyVal.isStr]
  · intro api model dtype x xs pre bs ab dtk h
    cases x <;> simp_all [aembed_many_body, PyVal.isStr]

/-- C1 (amended) witness: the validation failures at concrete inputs. -/
theorem typeerror_validation_before_remote_call_witness :
    embed_body constApi3 "m" "float32" (.int 7) Option.none false Option.none =
      (.error (.typeError "Must pass in a str value to embed."), []) ∧
    aembed_body constApi3 "m" "float32" (.int 7) Option.none false Option.none =
      (.error (.typeError "Must pass in a str value to embed."), []) ∧
    embed_many_body constApi3 "m" "float32" (.str "oops") Option.none 10 false
        Option.none =
      (.error (.typeError "Must pass in a list of str values to embed."), []) ∧
    aembed_many_body constApi3 "m" "float32" (.str "oops") Option.none 10 false
        Option.none =
      (.error (.typeError "Must pass in a list of str values to embed."), []) ∧
    embed_many_body constApi3 "m" "float32" (.list [.int 1, .str "a"])
        Option.none 10 false Option.none =
      (.error (.typeError "Must pass in a list of str values to embed."), []) ∧
    aembed_many_body constApi3 "m" "float32" (.list [.int 1, .str "a"])
        Option.none 10 false Option.none =
      (.error (.typeError "Must pass in a list of str values to embed."), []) :=
  ⟨typeerror_validation_before_remote_call.1 constApi3 "m" "float32" (.int 7)
      Option.none false Option.none rfl,
   typeerror_validation_before_remote_call.2.1 constApi3 "m" "float32" (.int 7)
      Option.none false Option.none rfl,
   typeerror_validation_before_remote_call.2.2.1 constApi3 "m" "float32"
      (.str "oops") Option.none 10 false Option.none (fun items h => by cases h),
   typeerror_validation_before_remote_call.2.2.2.1 constApi3 "m" "float32"
      (.str "oops") Option.none 10 false Option.none (fun items h => by cases h),
   typeerror_validation_before_remote_call.2.2.2.2.1 constApi3 "m" "float32"
      (.int 1) [.str "a"] Option.none 10 false Option.none rfl,
   typeerror_validation_before_remote_call.2.2.2.2.2 constApi3 "m" "float32"
      (.int 1) [.str "a"] Option.none 10 false Option.none rfl⟩

/-- C2: for each of the four entry points, a body execution that raises
`TypeError` on the first attempt surfaces it immediately: the body is
executed exactly once and the call is never retried. -/
theorem typeerror_never_retried :
    (∀ (apiSeq : Nat → Api) (model dtype : String) (texts : PyVal)
        (pre : Option (PyVal → PyVal)) (bs : Nat) (ab : Bool)
        (dtk : Option String) (e : PyErr),
      (embed_many_body (apiSeq 0) model dtype texts pre bs ab dtk).1 = .error e →
      e.isTypeError = true →
      embed_many apiSeq model dtype texts pre bs ab dtk = (.error e, 1)) ∧
    (∀ (apiSeq : Nat → Api) (model dtype : String) (text : PyVal)
        (pre : Option (PyVal → PyVal)) (ab : Bool) (dtk : Option String)
        (e : PyErr),
      (embed_body (apiSeq 0) model dtype text pre ab dtk).1 = .error e →
      e.isTypeError = true →
      embed apiSeq model dtype text pre ab dtk = (.error e, 1)) ∧
    (∀ (apiSeq : Nat → Api) (model dtype : String) (texts : PyVal)
        (pre : Option (PyVal → PyVal)) (bs : Nat) (ab : Bool)
        (dtk : Option String) (e : PyErr),
      (aembed_many_body (apiSeq 0) model dtype texts pre bs ab dtk).1 = .error e →
      e.isTypeError = true →
      aembed_many apiSeq model dtype texts pre bs ab dtk = (.error e, 1)) ∧
    (∀ (apiSeq : Nat → Api) (model dtype : String) (text : PyVal)
        (pre : Option (PyVal → PyVal)) (ab : Bool) (dtk : Option String)
        (e : PyErr),
      (aembed_body (apiSeq 0) model dtype text pre ab dtk).1 = .error e →
      e.isTypeError = true →
      aembed apiSeq model dtype text pre ab dtk = (.error e, 1)) := by
  refine ⟨?_, ?_, ?_, ?_⟩ <;>
    introv h0 hte <;>
    exact tenacityRetry_typeError 6 _ _ (by omega) h0 hte

/-- C2 witness: a non-list argument to `embed_many` (resp. a non-string to
`embed`) raises `TypeError` after exactly one body execution. -/
theorem typeerror_never_retried_witness :
    embed_many constApiSeq3 "m" "float32" (.int 0) Option.none 10 false
        Option.none =
      (.error (.typeError "Must pass in a list of str values to embed."), 1) ∧
    embed constApiSeq3 "m" "float32" (.int 0) Option.none false Option.none =
      (.error (.typeError "Must pass in a str value to embed."), 1) ∧
    aembed_many constApiSeq3 "m" "float32" (.int 0) Option.none 10 false
        Option.none =
      (.error (.typeError "Must pass in a list of str values to embed."), 1) ∧
    aembed constApiSeq3 "m" "float32" (.int 0) Option.none false Option.none =
      (.error (.typeError "Must pass in a str value to embed."), 1) :=
  ⟨typeerror_never_retried.1 constApiSeq3 "m" "float32" (.int 0) Option.none 10
      false Option.none _ rfl rfl,
   typeerror_never_retried.2.1 constApiSeq3 "m" "float32" (.int 0) Option.none
      false Option.none _ rfl rfl,
   typeerror_never_retried.2.2.1 constApiSeq3 "m" "float32" (.int 0) Option.none
      10 false Option.none _ rfl rfl,
   typeerror_never_retried.2.2.2 constApiSeq3 "m" "float32" (.int 0) Option.none
      false Option.none _ rfl rfl⟩

/-- C3: for each of the four entry points, when every attempt fails with a
non-`TypeError` exception the body is executed exactly 6 times and the
failure of the 6th execution is surfaced to the caller; moreover no call
ever executes its body more than 6 times (in particular never a 7th time). -/
theorem nontype_failures_capped_at_six :
    (∀ (apiSeq : Nat → Api) (model dtype : String) (texts : PyVal)
        (pre : Option (PyVal → PyVal)) (bs : Nat) (ab : Bool)
        (dtk : Option String),
      (∀ i, i < 6 → ∃ e,
        (embed_many_body (apiSeq i) model dtype texts pre bs ab dtk).1 =
          .error e ∧ e.isTypeError = false) →
      ∃ e, embed_many apiSeq model dtype texts pre bs ab dtk = (.error e, 6) ∧
        (embed_many_body (apiSeq 5) model dtype texts pre bs ab dtk).1 =
          .error e) ∧
    (∀ (apiSeq : Nat → Api) (model dtype : String) (text : PyVal)
        (pre : Option (PyVal → PyVal)) (ab : Bool) (dtk : Option String),
      (∀ i, i < 6 → ∃ e,
        (embed_body (apiSeq i) model dtype text pre ab dtk).1 =
          .error e ∧ e.isTypeError = false) →
      ∃ e, embed apiSeq model dtype text pre ab dtk = (.error e, 6) ∧
        (embed_body (apiSeq 5) model dtype text pre ab dtk).1 = .error e) ∧
    (∀ (apiSeq : Nat → Api) (model dtype : String) (texts : PyVal)
        (pre : Option (PyVal → PyVal)) (bs : Nat) (ab : Bool)
        (dtk : Option String),
      (∀ i, i < 6 → ∃ e,
        (aembed_many_body (apiSeq i) model dtype texts pre bs ab dtk).1 =
          .error e ∧ e.isTypeError = false) →
      ∃ e, aembed_many apiSeq model dtype texts pre bs ab dtk = (.error e, 6) ∧
        (aembed_many_body (apiSeq 5) model dtype texts pre bs ab dtk).1 =
          .error e) ∧
    (∀ (apiSeq : Nat → Api) (model dtype : String) (text : PyVal)
        (pre : Option (PyVal → PyVal)) (ab : Bool) (dtk : Option String),
      (∀ i, i < 6 → ∃ e,
        (aembed_body (apiSeq i) model dtype text pre ab dtk).1 =
          .error e ∧ e.isTypeError = false) →
      ∃ e, aembed apiSeq model dtype text pre ab dtk = (.error e, 6) ∧
        (aembed_body (apiSeq 5) model dtype text pre ab dtk).1 = .error e) ∧
    (∀ (apiSeq : Nat → Api) (model dtype : String) (texts : PyVal)
        (pre : Option (PyVal → PyVal)) (bs : Nat) (ab : Bool)
        (dtk : Option String),
      (embed_many apiSeq model dtype texts pre bs ab dtk).2 ≤ 6) ∧
    (∀ (apiSeq : Nat → Api) (model dtype : String) (text : PyVal)
        (pre : Option (PyVal → PyVal)) (ab : Bool) (dtk : Option String),
      (embed apiSeq model dtype text pre ab dtk).2 ≤ 6) ∧
    (∀ (apiSeq : Nat → Api) (model dtype : String) (texts : PyVal)
        (pre : Option (PyVal → PyVal)) (bs : Nat) (ab : Bool)
        (dtk : Option String),
      (aembed_many apiSeq model dtype texts pre bs ab dtk).2 ≤ 6) ∧
    (∀ (apiSeq : Nat → Api) (model dtype : String) (text : PyVal)
        (pre : Option (PyVal → PyVal)) (ab : Bool) (dtk : Option String),
      (aembed apiSeq model dtype text pre ab dtk).2 ≤ 6) := by
  refine ⟨?_, ?_, ?_, ?_, ?_, ?_, ?_, ?_⟩
  · introv hall
    exact tenacityRetry_all_fail _ hall
  · introv hall
    exact tenacityRetry_all_fail _ hall
  · introv hall
    exact tenacityRetry_all_fail _ hall
  · introv hall
    exact tenacityRetry_all_fail _ hall
  · introv
    exact tenacityRetry_count_le 6 _
  · introv
    exact tenacityRetry_count_le 6 _
  · introv
    exact tenacityRetry_count_le 6 _
  · introv
    exact tenacityRetry_count_le 6 _

/-- C3 witness: an endpoint failing with a connection error on every
attempt leads to 6 executions and a surfaced failure, and the execution
counts are within the cap. -/
theorem nontype_failures_capped_at_six_witness :
    (∃ e, embed_many failApiSeq "m" "float32" (.list [.str "a"]) Option.none 10
        false Option.none = (.error e, 6) ∧
      (embed_many_body (failApiSeq 5) "m" "float32" (.list [.str "a"])
        Option.none 10 false Option.none).1 = .error e) ∧
    (∃ e, embed failApiSeq "m" "float32" (.str "a") Option.none false
        Option.none = (.error e, 6) ∧
      (embed_body (failApiSeq 5) "m" "float32" (.str "a") Option.none false
        Option.none).1 = .error e) ∧
    (∃ e, aembed_many failApiSeq "m" "float32" (.list [.str "a"]) Option.none 10
        false Option.none = (.error e, 6) ∧
      (aembed_many_body (failApiSeq 5) "m" "float32" (.list [.str "a"])
        Option.none 10 false Option.none).1 = .error e) ∧
    (∃ e, aembed failApiSeq "m" "float32" (.str "a") Option.none false
        Option.none = (.error e, 6) ∧
      (aembed_body (failApiSeq 5) "m" "float32" (.str "a") Option.none false
        Option.none).1 = .error e) ∧
    (embed_many failApiSeq "m" "float32" (.list [.str "a"]) Option.none 10 false
      Option.none).2 ≤ 6 ∧
    (embed failApiSeq "m" "float32" (.str "a") Option.none false
      Option.none).2 ≤ 6 ∧
    (aembed_many failApiSeq "m" "float32" (.list [.str "a"]) Option.none 10
      false Option.none).2 ≤ 6 ∧
    (aembed failApiSeq "m" "float32" (.str "a") Option.none false
      Option.none).2 ≤ 6 :=
  ⟨nontype_failures_capped_at_six.1 failApiSeq "m" "float32" (.list [.str "a"])
      Option.none 10 false Option.none
      (fun i hi => ⟨.apiError "connection error", rfl, rfl⟩),
   nontype_failures_capped_at_six.2.1 failApiSeq "m" "float32" (.str "a")
      Option.none false Option.none
      (fun i hi => ⟨.apiError "connection error", rfl, rfl⟩),
   nontype_failures_capped_at_six.2.2.1 failApiSeq "m" "float32"
      (.list [.str "a"]) Option.none 10 false Option.none
      (fun i hi => ⟨.apiError "connection error", rfl, rfl⟩),
   nontype_failures_capped_at_six.2.2.2.1 failApiSeq "m" "float32" (.str "a")
      Option.none false Option.none
      (fun i hi => ⟨.apiError "connection error", rfl, rfl⟩),
   nontype_failures_capped_at_six.2.2.2.2.1 failApiSeq "m" "float32"
      (.list [.str "a"]) Option.none 10 false Option.none,
   nontype_failures_capped_at_six.2.2.2.2.2.1 failApiSeq "m" "float32"
      (.str "a") Option.none false Option.none,
   nontype_failures_capped_at_six.2.2.2.2.2.2.1 failApiSeq "m" "float32"
      (.list [.str "a"]) Option.none 10 false Option.none,
   nontype_failures_capped_at_six.2.2.2.2.2.2.2 failApiSeq "m" "float32"
      (.str "a") Option.none false Option.none⟩

/-- C4: on a list of N strings, when the endpoint returns exactly one
vector of the declared dimension per input string, `embed_many` and
`aembed_many` return N embeddings, each a float list of the declared
dimension. -/
theorem embed_many_n_vectors_of_dims
    (api : Api) (model dtype : String) (f : PyVal → List Int) (dims : Nat)
    (items : List PyVal) (batch_size : Nat)
    (hbs : 0 < batch_size)
    (hstr : ∀ x ∈ items, x.isStr = true)
    (hapi : ∀ b, api b = .ok (b.map f))
    (hdims : ∀ x, (f x).length = dims) :
    ∃ out,
      (embed_many_body api model dtype (.list items) Option.none batch_size
        false Option.none).1 = .ok out ∧
      (aembed_many_body api model dtype (.list items) Option.none batch_size
        false Option.none).1 = .ok out ∧
      out.length = items.length ∧
      ∀ emb ∈ out, ∃ v, emb = .floats v ∧ v.length = dims := by
  have h := embed_many_body_ok api model dtype f items batch_size false
    Option.none hbs (fun x hx => hstr x (List.mem_of_mem_take hx)) hapi
  have ha : aembed_many_body api model dtype (.list items) Option.none
      batch_size false Option.none =
    embed_many_body api model dtype (.list items) Option.none batch_size
      false Option.none := rfl
  refine ⟨items.map (fun t => .floats (f t)), ?_, ?_, by simp, ?_⟩
  · rw [h]
    simp [_process_embedding]
  · rw [ha, h]
    simp [_process_embedding]
  · intro emb hemb
    rw [List.mem_map] at hemb
    obtain ⟨x, hx, rfl⟩ := hemb
    exact ⟨f x, rfl, hdims x⟩

/-- C4 witness: two strings, a 3-dimensional endpoint. -/
theorem embed_many_n_vectors_of_dims_witness :
    ∃ out,
      (embed_many_body constApi3 "m" "float32"
        (.list [.str "a", .str "b"]) Option.none 10 false Option.none).1 =
        .ok out ∧
      (aembed_many_body constApi3 "m" "float32"
        (.list [.str "a", .str "b"]) Option.none 10 false Option.none).1 =
        .ok out ∧
      out.length = ([PyVal.str "a", PyVal.str "b"] : List PyVal).length ∧
      ∀ emb ∈ out, ∃ v, emb = .floats v ∧ v.length = 3 :=
  embed_many_n_vectors_of_dims constApi3 "m" "float32" (fun _ => [0, 0, 0]) 3
    [.str "a", .str "b"] 10 (by omega)
    (by intro x hx; simp only [List.mem_cons, List.not_mem_nil, or_false] at hx
        rcases hx with rfl | rfl <;> rfl)
    (fun b => rfl) (fun x => rfl)

/-- C6: with a positive batch size and a per-text endpoint, `embed_many`
splits a list of strings into consecutive batches of at most `batch_size`
elements, issues exactly one remote call per batch (the call log is the
chunk list, whose concatenation is the input), and returns the processed
embeddings in input order: the result is the input list mapped
element-wise, so the i-th embedding corresponds to the i-th input text. -/
theorem embed_many_batches_in_order
    (api : Api) (model dtype : String) (f : PyVal → List Int)
    (items : List PyVal) (batch_size : Nat) (ab : Bool) (dtk : Option String)
    (hbs : 0 < batch_size)
    (hstr : ∀ x ∈ items, x.isStr = true)
    (hapi : ∀ b, api b = .ok (b.map f)) :
    embed_many_body api model dtype (.list items) Option.none batch_size ab
        dtk =
      (.ok (items.map (fun t => _process_embedding (f t) ab (dtk.getD dtype))),
       chunkList batch_size items) ∧
    (chunkList batch_size items).flatten = items ∧
    (∀ c ∈ chunkList batch_size items, c.length ≤ batch_size ∧ c ≠ []) :=
  ⟨embed_many_body_ok api model dtype f items batch_size ab dtk hbs
      (fun x hx => hstr x (List.mem_of_mem_take hx)) hapi,
   chunkList_flatten batch_size hbs items,
   chunkList_mem batch_size hbs items⟩

/-- C6 witness: three strings with batch size 2 give two consecutive
batches and three in-order embeddings. -/
theorem embed_many_batches_in_order_witness :
    embed_many_body constApi3 "m" "float32"
        (.list [.str "a", .str "b", .str "c"]) Option.none 2 false
        Option.none =
      (.ok (([.str "a", .str "b", .str "c"] : List PyVal).map
          (fun t => _process_embedding ((fun _ => ([0, 0, 0] : List Int)) t)
            false ((Option.none : Option String).getD "float32"))),
       chunkList 2 [.str "a", .str "b", .str "c"]) ∧
    (chunkList 2 [.str "a", .str "b", .str "c"]).flatten =
      [.str "a", .str "b", .str "c"] ∧
    (∀ c ∈ chunkList 2 [.str "a", .str "b", .str "c"],
      c.length ≤ 2 ∧ c ≠ []) :=
  embed_many_batches_in_order constApi3 "m" "float32"
    (fun _ => ([0, 0, 0] : List Int)) [.str "a", .str "b", .str "c"] 2 false
    Option.none (by omega)
    (by intro x hx
        simp only [List.mem_cons, List.not_mem_nil, or_false] at hx
        rcases hx with rfl | rfl | rfl <;> rfl)
    (fun b => rfl)

/-- C7: with identical endpoint responses and identical arguments, the
async entry points return exactly the results of their synchronous
counterparts, both as raw bodies (with call logs) and under the retry
decorator (with execution counts). -/
theorem async_sync_result_equal :
    (∀ (api : Api) (model dtype : String) (text : PyVal)
        (pre : Option (PyVal → PyVal)) (ab : Bool) (dtk : Option String),
      aembed_body api model dtype text pre ab dtk =
        embed_body api model dtype text pre ab dtk) ∧
    (∀ (api : Api) (model dtype : String) (texts : PyVal)
        (pre : Option (PyVal → PyVal)) (bs : Nat) (ab : Bool)
        (dtk : Option String),
      aembed_many_body api model dtype texts pre bs ab dtk =
        embed_many_body api model dtype texts pre bs ab dtk) ∧
    (∀ (apiSeq : Nat → Api) (model dtype : String) (text : PyVal)
        (pre : Option (PyVal → PyVal)) (ab : Bool) (dtk : Option String),
      aembed apiSeq model dtype text pre ab dtk =
        embed apiSeq model dtype text pre ab dtk) ∧
    (∀ (apiSeq : Nat → Api) (model dtype : String) (texts : PyVal)
        (pre : Option (PyVal → PyVal)) (bs : Nat) (ab : Bool)
        (dtk : Option String),
      aembed_many apiSeq model dtype texts pre bs ab dtk =
        embed_many apiSeq model dtype texts pre bs ab dtk) :=
  ⟨fun _ _ _ _ _ _ _ => rfl, fun _ _ _ _ _ _ _ _ => rfl,
   fun _ _ _ _ _ _ _ => rfl, fun _ _ _ _ _ _ _ _ => rfl⟩

/-- C8: on the empty list, `embed_many` and `aembed_many` return the empty
list and the call log is empty: no remote embeddings call is performed. -/
theorem embed_many_empty_no_call :
    ∀ (api : Api) (model dtype : String) (pre : Option (PyVal → PyVal))
      (bs : Nat) (ab : Bool) (dtk : Option String),
      embed_many_body api model dtype (.list []) pre bs ab dtk = (.ok [], []) ∧
      aembed_many_body api model dtype (.list []) pre bs ab dtk = (.ok [], []) := by
  intro api model dtype pre bs ab dtk
  cases pre <;> exact ⟨rfl, rfl⟩

/-- C5: on successful construction with an endpoint whose first probe
answer is the vector `v`, the constructor sets `dims` to the length of `v`,
the embedding of the sentinel probe string "dimension check"; and none of
the four entry points, called as a method on any receiver, modifies the
receiver (in particular `dims` is never modified afterwards). -/
theorem dims_probed_once_at_construction
    (apiSeq : Nat → Api) (model dtype : String) (api_config : Option PyDict)
    (env : Option String) (v : List Int) (rest : List (List Int))
    (vz : OpenAITextVectorizer)
    (hprobe : apiSeq 0 [PyVal.str "dimension check"] = .ok (v :: rest))
    (hmk : mkOpenAITextVectorizer apiSeq model dtype api_config env = .ok vz) :
    vz.dims = v.length ∧
    (∀ (apiSeq2 : Nat → Api) (vz2 : OpenAITextVectorizer) (texts : PyVal)
        (pre : Option (PyVal → PyVal)) (bs : Nat) (ab : Bool)
        (dtk : Option String),
      (embed_many_method apiSeq2 vz2 texts pre bs ab dtk).2 = vz2) ∧
    (∀ (apiSeq2 : Nat → Api) (vz2 : OpenAITextVectorizer) (text : PyVal)
        (pre : Option (PyVal → PyVal)) (ab : Bool) (dtk : Option String),
      (embed_method apiSeq2 vz2 text pre ab dtk).2 = vz2) ∧
    (∀ (apiSeq2 : Nat → Api) (vz2 : OpenAITextVectorizer) (texts : PyVal)
        (pre : Option (PyVal → PyVal)) (bs : Nat) (ab : Bool)
        (dtk : Option String),
      (aembed_many_method apiSeq2 vz2 texts pre bs ab dtk).2 = vz2) ∧
    (∀ (apiSeq2 : Nat → Api) (vz2 : OpenAITextVectorizer) (text : PyVal)
        (pre : Option (PyVal → PyVal)) (ab : Bool) (dtk : Option String),
      (aembed_method apiSeq2 vz2 text pre ab dtk).2 = vz2) := by
  have hbody : (embed_body (apiSeq 0) model dtype (.str "dimension check")
      Option.none false Option.none).1 = .ok (.floats v) := by
    simp [embed_body, hprobe, _process_embedding]
  have hemb : embed apiSeq model dtype (.str "dimension check") Option.none
      false Option.none = (.ok (.floats v), 1) :=
    tenacityRetry_ok 6 _ _ (by omega) hbody
  have hdims : _set_model_dims apiSeq model dtype = .ok v.length := by
    rw [_set_model_dims, hemb]
    rfl
  rw [mkOpenAITextVectorizer] at hmk
  cases hinit : init_clients api_config env with
  | error e =>
    rw [hinit] at hmk
    exact absurd hmk (by simp)
  | ok ci =>
    rw [hinit, hdims] at hmk
    simp only [Except.ok.injEq] at hmk
    refine ⟨?_, fun _ _ _ _ _ _ _ => rfl, fun _ _ _ _ _ _ => rfl,
      fun _ _ _ _ _ _ _ => rfl, fun _ _ _ _ _ _ => rfl⟩
    rw [← hmk]

/-- C5 witness: a concrete construction against a 3-dimensional endpoint
sets `dims = 3` and the method calls leave the receiver unchanged. -/
theorem dims_probed_once_at_construction_witness :
    (⟨"m", "float32", 3⟩ : OpenAITextVectorizer).dims =
      ([0, 0, 0] : List Int).length ∧
    (embed_many_method constApiSeq3 ⟨"m", "float32", 3⟩ (.list [.str "a"])
      Option.none 10 false Option.none).2 = ⟨"m", "float32", 3⟩ ∧
    (embed_method constApiSeq3 ⟨"m", "float32", 3⟩ (.str "a") Option.none
      false Option.none).2 = ⟨"m", "float32", 3⟩ ∧
    (aembed_many_method constApiSeq3 ⟨"m", "float32", 3⟩ (.list [.str "a"])
      Option.none 10 false Option.none).2 = ⟨"m", "float32", 3⟩ ∧
    (aembed_method constApiSeq3 ⟨"m", "float32", 3⟩ (.str "a") Option.none
      false Option.none).2 = ⟨"m", "float32", 3⟩ :=
  have h := dims_probed_once_at_construction constApiSeq3 "m" "float32"
    Option.none (some "sk") [0, 0, 0] [] ⟨"m", "float32", 3⟩ rfl rfl
  ⟨h.1,
   h.2.1 constApiSeq3 ⟨"m", "float32", 3⟩ (.list [.str "a"]) Option.none 10
     false Option.none,
   h.2.2.1 constApiSeq3 ⟨"m", "float32", 3⟩ (.str "a") Option.none false
     Option.none,
   h.2.2.2.1 constApiSeq3 ⟨"m", "float32", 3⟩ (.list [.str "a"]) Option.none
     10 false Option.none,
   h.2.2.2.2 constApiSeq3 ⟨"m", "float32", 3⟩ (.str "a") Option.none false
     Option.none⟩

/-- C9: a non-empty `api_config` without an `"api_key"` entry makes the
constructor raise `KeyError`, whatever the `OPENAI_API_KEY` environment
variable holds; indeed on any non-empty `api_config` the result never
depends on the environment variable, so the fallback is consulted only for
a `None` or empty `api_config`. -/
theorem apiconfig_missing_key_keyerror
    (cfg : PyDict) (hne : cfg ≠ [])
    (hk : List.lookup "api_key" cfg = Option.none) :
    (∀ env, init_clients (some cfg) env = .error (.keyError "api_key")) ∧
    (∀ (apiSeq : Nat → Api) (model dtype : String) (env : Option String),
      mkOpenAITextVectorizer apiSeq model dtype (some cfg) env =
        .error (.keyError "api_key")) ∧
    (∀ (cfg2 : PyDict), cfg2 ≠ [] →
      ∀ env env2,
        init_clients (some cfg2) env = init_clients (some cfg2) env2) := by
  have h1 : ∀ env, init_clients (some cfg) env = .error (.keyError "api_key") := by
    intro env
    cases cfg with
    | nil => exact absurd rfl hne
    | cons kv rest => simp [init_clients, dictPop, hk]
  refine ⟨h1, ?_, ?_⟩
  · intro apiSeq model dtype env
    rw [mkOpenAITextVectorizer, h1 env]
  · intro cfg2 hne2 env env2
    cases cfg2 with
    | nil => exact absurd rfl hne2
    | cons kv rest => rfl

/-- C9 witness: `{"organization": "org"}` raises `KeyError` with and
without the environment variable set, and a non-empty config makes the
result independent of the environment variable. -/
theorem apiconfig_missing_key_keyerror_witness :
    init_clients (some [("organization", "org")]) (some "sk-env") =
      .error (.keyError "api_key") ∧
    init_clients (some [("organization", "org")]) Option.none =
      .error (.keyError "api_key") ∧
    mkOpenAITextVectorizer constApiSeq3 "m" "float32"
        (some [("organization", "org")]) (some "sk-env") =
      .error (.keyError "api_key") ∧
    init_clients (some [("api_key", "abc")]) (some "sk-env") =
      init_clients (some [("api_key", "abc")]) Option.none :=
  have h := apiconfig_missing_key_keyerror [("organization", "org")]
    (by simp) rfl
  ⟨h.1 (some "sk-env"), h.1 Option.none,
   h.2.1 constApiSeq3 "m" "float32" (some "sk-env"),
   h.2.2 [("api_key", "abc")] (by simp) (some "sk-env") Option.none⟩

/-- C10: whenever the construction-time dimension probe fails, the
exception that leaves `_set_model_dims` is a `ValueError`: `KeyError` and
`IndexError` from an unexpected response shape and every other exception
from the probe are rewrapped, so no other exception type escapes the
constructor from this step. -/
theorem set_model_dims_wraps_valueerror
    (apiSeq : Nat → Api) (model dtype : String) (e : PyErr)
    (herr : _set_model_dims apiSeq model dtype = .error e) :
    ∃ msg, e = .valueError msg := by
  rw [_set_model_dims] at herr
  cases hres : (embed apiSeq model dtype (.str "dimension check") Option.none
      false Option.none).1 with
  | ok emb =>
    rw [hres] at herr
    simp at herr
  | error e2 =>
    rw [hres] at herr
    cases e2 <;> simp only [Except.error.injEq] at herr <;> exact ⟨_, herr.symm⟩

/-- C10 witness: an endpoint that always fails with a connection error
makes the probe surface a `ValueError`. -/
theorem set_model_dims_wraps_valueerror_witness :
    _set_model_dims failApiSeq "m" "float32" =
      .error (.valueError
        "Error setting embedding model dimensions: connection error") ∧
    ∃ msg, (PyErr.valueError
        "Error setting embedding model dimensions: connection error") =
      .valueError msg :=
  ⟨rfl, set_model_dims_wraps_valueerror failApiSeq "m" "float32" _ rfl⟩
